import Mathlib

/-!
Verification of the CLI orchestration of fastmod (`src/main.rs`).

The program parses command-line options, optionally escapes the pattern and the
substitution in fixed-string mode, compiles a `regex::Regex` and a
`grep::regex::RegexMatcher` with case/multi-line/dot-matches-newline flags,
asks for a one-time confirmation when the compiled regex matches the empty
string, and then dispatches either to the non-interactive batch entry point
(`Fastmod::run_fast`) or to the interactive entry point
(`Fastmod::new(..).run_interactive`).

The embedding below models this orchestration as a pure function from the
parsed CLI matches (plus the behaviour of the external regex libraries and the
outcome of the terminal prompt, which are not code of this repository) to a
trace of externally visible events together with an `Except` result.
-/

namespace FastmodCli

/-- Parsed command-line matches, one field per `Arg` registered on the clap
`App` in `main.rs`.  Flags are booleans (`is_present`), multi-value options
are lists of values in the order given, and the two required positionals are
strings. -/
structure CliMatches where
  multiline : Bool
  dir : List String
  file_or_dir : List String
  ignore_case : Bool
  extensions : List String
  glob : List String
  iglob : List String
  hidden : Bool
  accept_all : Bool
  print_changed_files : Bool
  fixed_strings : Bool
  match_regex : String
  subst : String
  deriving DecidableEq

/-- The compiled `regex::Regex`, recorded as the pattern string handed to
`RegexBuilder::new` together with the three builder flags set in `main.rs`
lines 163-167. -/
structure Regex where
  pattern : String
  case_insensitive : Bool
  multi_line : Bool
  dot_matches_new_line : Bool
  deriving DecidableEq

/-- The compiled `grep::regex::RegexMatcher`, recorded as the pattern string
handed to `RegexMatcherBuilder::build` together with the three builder flags
set in `main.rs` lines 176-180. -/
structure RegexMatcher where
  pattern : String
  case_insensitive : Bool
  multi_line : Bool
  dot_matches_new_line : Bool
  deriving DecidableEq

/-- Modelled from the spec: `get_file_set` is defined in the fastmod library
crate, which is not under `src/`; per the spec the file source honours
extension and glob filters.  We record the filter-relevant CLI values it is
computed from, which is all the claims need (the same value is passed to both
entry points). -/
structure FileSet where
  extensions : List String
  glob : List String
  iglob : List String
  deriving DecidableEq

def get_file_set (m : CliMatches) : FileSet :=
  { extensions := m.extensions, glob := m.glob, iglob := m.iglob }

/-- Whether a character is a regex metacharacter, after
`regex_syntax::is_meta_character` (the predicate used by `regex::escape`,
an external library call made on `main.rs` line 159). -/
def is_meta_character (c : Char) : Bool :=
  c = '\\' || c = '.' || c = '+' || c = '*' || c = '?' || c = '(' || c = ')' ||
  c = '|' || c = '[' || c = ']' || c = '{' || c = '}' || c = '^' || c = '$' ||
  c = '#' || c = '&' || c = '-' || c = '~'

/-- Character-level body of `regex::escape`: each metacharacter is preceded by
a backslash, every other character is copied unchanged. -/
def escapeChars : List Char → List Char
  | [] => []
  | c :: cs =>
    if is_meta_character c then '\\' :: c :: escapeChars cs
    else c :: escapeChars cs

/-- The external `regex::escape` called on `main.rs` line 159. -/
def regex_escape (s : String) : String := ⟨escapeChars s.data⟩

/-- Character-level body of `subst.replace("$", "$$")` (`main.rs` line 159):
since the needle is the single character `$`, Rust's `str::replace` rewrites
each occurrence of `$` to `$$` and leaves every other character unchanged. -/
def escapeDollarsChars : List Char → List Char
  | [] => []
  | c :: cs =>
    if c = '$' then '$' :: '$' :: escapeDollarsChars cs
    else c :: escapeDollarsChars cs

def escape_dollars (s : String) : String := ⟨escapeDollarsChars s.data⟩

/-- `main.rs` lines 158-162: in fixed-string mode the pattern is
metacharacter-escaped, otherwise it is passed through unchanged. -/
def maybe_escaped_regex (m : CliMatches) : String :=
  if m.fixed_strings then regex_escape m.match_regex else m.match_regex

/-- `main.rs` lines 158-162: in fixed-string mode every `$` of the
substitution is escaped to `$$`, otherwise it is passed through unchanged. -/
def subst_escaped (m : CliMatches) : String :=
  if m.fixed_strings then escape_dollars m.subst else m.subst

/-- `main.rs` lines 140-150: the `--dir` values, then the positional
file-or-dir values; if both are absent, the single default root `"."`. -/
def dirs (m : CliMatches) : List String :=
  let ds := m.dir ++ m.file_or_dir
  if ds.isEmpty then ["."] else ds

/-- The `regex::Regex` built on `main.rs` lines 163-167: case sensitivity from
`-i`, multi-line unconditionally on (to match codemod behaviour for `^` and
`$`), dot-matches-newline from `-m`. -/
def build_regex (m : CliMatches) : Regex :=
  { pattern := maybe_escaped_regex m
    case_insensitive := m.ignore_case
    multi_line := true
    dot_matches_new_line := m.multiline }

/-- The `grep::regex::RegexMatcher` built on `main.rs` lines 176-180, from the
same pattern string and the same three flags. -/
def build_matcher (m : CliMatches) : RegexMatcher :=
  { pattern := maybe_escaped_regex m
    case_insensitive := m.ignore_case
    multi_line := true
    dot_matches_new_line := m.multiline }

/-- Behaviour of the external regex libraries, over which the pipeline is
parametric: whether `RegexBuilder::build` succeeds on a compiled-regex
configuration, whether `RegexMatcherBuilder::build` succeeds, and what
`Regex::is_match` answers on a haystack. -/
structure RegexLib where
  regex_build_ok : Regex → Bool
  matcher_build_ok : RegexMatcher → Bool
  is_match : Regex → String → Bool

/-- Externally visible events of one run of `fastmod()`: the empty-string
warning prompt (`main.rs` lines 169-175), the batch entry point
`Fastmod::run_fast` (lines 183-191) with its seven arguments, and the
interactive entry point (lines 193-194) with the three constructor arguments
of `Fastmod::new` followed by the five arguments of `run_interactive`. -/
inductive Event where
  | prompt_empty_warning : Regex → Event
  | run_fast : Regex → RegexMatcher → String → List String → FileSet → Bool → Bool → Event
  | run_interactive : Bool → Bool → Bool → Regex → RegexMatcher → String → List String → FileSet → Event
  deriving DecidableEq

/-- Errors that propagate out of `fastmod()`: the regex build failure with the
context message naming the original (unescaped) pattern (`main.rs` line 168),
the matcher build failure (line 180), and a failure of
`prompt_reply_stderr` to read the confirmation reply (line 174). -/
inductive FastmodError where
  | config_error : String → FastmodError
  | matcher_config_error : String → FastmodError
  | prompt_read_error : FastmodError
  deriving DecidableEq

/-- Discriminates the pattern-compilation errors (the spec's `ConfigError`
class) from the other errors `fastmod()` can return. -/
def isConfigError : FastmodError → Bool
  | .config_error _ => true
  | .matcher_config_error _ => true
  | .prompt_read_error => false

def isPromptEvent : Event → Bool
  | .prompt_empty_warning _ => true
  | _ => false

def isEntryEvent : Event → Bool
  | .run_fast _ _ _ _ _ _ _ => true
  | .run_interactive _ _ _ _ _ _ _ _ => true
  | _ => false

/-- `main.rs` lines 176-195: build the matcher, then dispatch on `accept_all`
to `Fastmod::run_fast` or `Fastmod::new(..).run_interactive`.  The entry
points themselves are in the fastmod library; per the spec they collect all
per-file and per-match errors into the result summary, so their invocation is
recorded as an event and the result is success. -/
def build_and_run (lib : RegexLib) (m : CliMatches) :
    List Event × Except FastmodError Unit :=
  let matcher := build_matcher m
  if lib.matcher_build_ok matcher = false then
    ([], .error (.matcher_config_error matcher.pattern))
  else if m.accept_all then
    ([.run_fast (build_regex m) matcher (subst_escaped m) (dirs m)
        (get_file_set m) m.hidden m.print_changed_files], .ok ())
  else
    ([.run_interactive m.accept_all m.hidden m.print_changed_files
        (build_regex m) matcher (subst_escaped m) (dirs m) (get_file_set m)], .ok ())

/-- The whole of `fastmod()` (`main.rs` lines 139-196) after argument
parsing: build the regex (aborting with a `ConfigError` naming the original
pattern on failure), ask the one-time empty-string confirmation when the
compiled regex matches the empty string (discarding the reply, aborting only
when reading the reply fails, which is `prompt_reply = none`), then build the
matcher and dispatch to exactly one entry point. -/
def fastmod (lib : RegexLib) (prompt_reply : Option String) (m : CliMatches) :
    List Event × Except FastmodError Unit :=
  let regex := build_regex m
  if lib.regex_build_ok regex = false then
    ([], .error (.config_error m.match_regex))
  else if lib.is_match regex ("") then
    match prompt_reply with
    | none => ([.prompt_empty_warning regex], .error .prompt_read_error)
    | some _ =>
      let rest := build_and_run lib m
      (.prompt_empty_warning regex :: rest.1, rest.2)
  else
    build_and_run lib m

/-- One atom of the fragment of regex syntax that escaped patterns live in: a
specific literal character, or the any-character metacharacter `.` (which
matches newlines only under dot-matches-newline). -/
inductive Atom where
  | lit : Char → Atom
  | dot : Atom
  deriving DecidableEq

/-- Reads a pattern that is a plain concatenation of atoms: a backslash
followed by a metacharacter denotes that character literally, an unescaped
`.` denotes the any-character atom, any other unescaped metacharacter falls
outside the fragment (`none`), and a plain character denotes itself.  This is
the concatenation-of-atoms fragment of the syntax of the regex crate; every
output of `regex::escape` lives in it. -/
def parseAtoms : List Char → Option (List Atom)
  | [] => some []
  | c :: rest =>
    if c = '\\' then
      match rest with
      | [] => none
      | c2 :: rest2 =>
        if is_meta_character c2 then (parseAtoms rest2).map (Atom.lit c2 :: ·)
        else none
    else if c = '.' then (parseAtoms rest).map (Atom.dot :: ·)
    else if is_meta_character c then none
    else (parseAtoms rest).map (Atom.lit c :: ·)

/-- A sequence of atoms matches a text (as a whole match span) when they line
up one atom per character: a literal atom matches exactly its character, and
`.` matches any character, excluding newline unless dot-matches-newline is
set. -/
def atomsMatch (dotall : Bool) : List Atom → List Char → Bool
  | [], [] => true
  | Atom.lit c :: as, d :: ds => (d = c) && atomsMatch dotall as ds
  | Atom.dot :: as, d :: ds => (dotall || !(d = '\n')) && atomsMatch dotall as ds
  | _, _ => false

/-- Whether a character may appear in an unbraced capture-group name in a
replacement template of the regex crate. -/
def cap_char (c : Char) : Bool := c.isAlphanum || c = '_'

/-- Reads a dollar-brace capture reference from a replacement template: the
longest run of name characters, which must be closed by a brace; returns the
name and the remainder, or `none` if no closing brace follows. -/
def parse_braced (l : List Char) : Option (String × List Char) :=
  match l.dropWhile cap_char with
  | '}' :: rest => some (⟨l.takeWhile cap_char⟩, rest)
  | _ => none

theorem parse_braced_length {l : List Char} {n : String} {r : List Char}
    (h : parse_braced l = some (n, r)) : r.length < l.length := by
  have hle : (l.dropWhile cap_char).length ≤ l.length :=
    List.Sublist.length_le (List.dropWhile_sublist cap_char)
  unfold parse_braced at h
  split at h
  · rename_i rest hd
    rw [Option.some.injEq, Prod.mk.injEq] at h
    rw [hd] at hle
    simp only [List.length_cons] at hle
    rw [← h.2]
    omega
  · exact absurd h (by simp)

/-- Expansion of a replacement template against capture groups, after the
replacement-string rules of the regex crate: `$$` emits a literal `$`;
a dollar-brace reference or `$` followed by a nonempty run of name characters
emits the text of that capture group (`g`); a `$` that starts no valid
reference is emitted literally; every other character is copied. -/
def expandTemplate (g : String → String) : List Char → List Char
  | [] => []
  | c :: rest =>
    if c = '$' then
      match rest with
      | [] => ['$']
      | c2 :: rest2 =>
        if c2 = '$' then '$' :: expandTemplate g rest2
        else if c2 = '{' then
          match hb : parse_braced rest2 with
          | some (name, rest3) => (g name).data ++ expandTemplate g rest3
          | none => '$' :: expandTemplate g (c2 :: rest2)
        else
          let name := (c2 :: rest2).takeWhile cap_char
          if name.isEmpty then '$' :: expandTemplate g (c2 :: rest2)
          else (g ⟨name⟩).data ++ expandTemplate g ((c2 :: rest2).dropWhile cap_char)
    else c :: expandTemplate g rest
  termination_by l => l.length
  decreasing_by
  all_goals simp_wf
  all_goals first
    | omega
    | (simp only [List.length_cons]; omega)
    | (have hpb := parse_braced_length hb
       simp only [List.length_cons] at *
       omega)
    | exact Nat.lt_of_le_of_lt
        (List.Sublist.length_le (List.dropWhile_sublist cap_char))
        (by simp only [List.length_cons]; omega)

/-- The output of `regex::escape` parses, in the concatenation-of-atoms
fragment, as exactly the sequence of literal atoms of the input: escaping
turns any string into a regex denoting that string literally. -/
theorem parseAtoms_escapeChars (l : List Char) :
    parseAtoms (escapeChars l) = some (l.map Atom.lit) := by
  induction l with
  | nil => rfl
  | cons c cs ih =>
    by_cases hm : is_meta_character c = true
    · simp [escapeChars, parseAtoms, hm, ih]
    · have hb : ¬(c = '\\') := by
        intro h
        rw [h] at hm
        exact hm rfl
      have hd : ¬(c = '.') := by
        intro h
        rw [h] at hm
        exact hm rfl
      rw [escapeChars, if_neg hm, parseAtoms.eq_def]
      simp [hm, hb, hd, ih]

/-- A sequence of literal atoms matches precisely its own character
sequence, regardless of the dot-matches-newline flag. -/
theorem atomsMatch_lit (dotall : Bool) (l s : List Char) :
    atomsMatch dotall (l.map Atom.lit) s = true ↔ s = l := by
  induction l generalizing s with
  | nil =>
    cases s with
    | nil => simp [atomsMatch]
    | cons d ds => simp [atomsMatch]
  | cons c cs ih =>
    cases s with
    | nil => simp [atomsMatch]
    | cons d ds => simp [atomsMatch, ih]

/-- Expanding a dollar-escaped replacement template reproduces the original
text verbatim, whatever the capture groups hold: after `escape_dollars` only
the literal-copy and the dollar-dollar rules of template expansion ever
fire. -/
theorem expandTemplate_escapeDollars (g : String → String) (l : List Char) :
    expandTemplate g (escapeDollarsChars l) = l := by
  induction l with
  | nil => simp [expandTemplate.eq_def, escapeDollarsChars]
  | cons c cs ih =>
    by_cases hc : c = '$'
    · subst hc
      simp only [escapeDollarsChars, if_pos rfl]
      rw [expandTemplate.eq_def]
      simp [ih]
    · simp only [escapeDollarsChars, if_neg hc]
      rw [expandTemplate.eq_def]
      simp [hc, ih]

/-- A regex-library behaviour where every pattern compiles and every regex
matches every haystack, in particular the empty one. -/
def lib_all : RegexLib :=
  { regex_build_ok := fun _ => true
    matcher_build_ok := fun _ => true
    is_match := fun _ _ => true }

/-- A regex-library behaviour where every pattern compiles and no regex
matches the empty haystack. -/
def lib_no_empty : RegexLib :=
  { regex_build_ok := fun _ => true
    matcher_build_ok := fun _ => true
    is_match := fun _ s => !(s = "") }

/-- A regex-library behaviour where no pattern compiles. -/
def lib_bad_regex : RegexLib :=
  { regex_build_ok := fun _ => false
    matcher_build_ok := fun _ => true
    is_match := fun _ _ => false }

/-- A concrete run configuration: pattern `a.b`, substitution `x`, every
option off and no explicit roots. -/
def m_base : CliMatches :=
  { multiline := false
    dir := []
    file_or_dir := []
    ignore_case := false
    extensions := []
    glob := []
    iglob := []
    hidden := false
    accept_all := false
    print_changed_files := false
    fixed_strings := false
    match_regex := "a.b"
    subst := "x" }

/-- The base configuration with fixed-string mode on and a substitution
containing a dollar reference. -/
def m_fixed : CliMatches :=
  { m_base with fixed_strings := true, subst := "x$1" }

/-- The base configuration with one `--dir` value and one positional root. -/
def m_dirs : CliMatches :=
  { m_base with dir := ["d1"], file_or_dir := ["p1"] }

theorem build_and_run_no_prompt (lib : RegexLib) (m : CliMatches) :
    ((build_and_run lib m).1.all fun e => !isPromptEvent e) = true := by
  unfold build_and_run
  by_cases hm : lib.matcher_build_ok (build_matcher m) = false
  · simp [hm]
  · by_cases ha : m.accept_all = true <;> simp [hm, ha, isPromptEvent]

theorem build_and_run_error_no_entry (lib : RegexLib) (m : CliMatches)
    (e : FastmodError) (h : (build_and_run lib m).2 = .error e) :
    (build_and_run lib m).1 = [] := by
  unfold build_and_run at h ⊢
  by_cases hm : lib.matcher_build_ok (build_matcher m) = false
  · simp [hm]
  · by_cases ha : m.accept_all = true <;> simp [hm, ha] at h

theorem build_and_run_error_is_config (lib : RegexLib) (m : CliMatches)
    (e : FastmodError) (h : (build_and_run lib m).2 = .error e) :
    isConfigError e = true := by
  unfold build_and_run at h
  by_cases hm : lib.matcher_build_ok (build_matcher m) = false
  · simp [hm] at h
    rw [← h]
    rfl
  · by_cases ha : m.accept_all = true <;> simp [hm, ha] at h

/-- The single entry-point event of a successful batch run, with the seven
arguments `main.rs` lines 183-191 pass to `Fastmod::run_fast`. -/
def entry_fast (m : CliMatches) : Event :=
  Event.run_fast (build_regex m) (build_matcher m) (subst_escaped m) (dirs m)
    (get_file_set m) m.hidden m.print_changed_files

/-- The single entry-point event of a successful interactive run, with the
constructor and call arguments of `main.rs` lines 193-194. -/
def entry_interactive (m : CliMatches) : Event :=
  Event.run_interactive m.accept_all m.hidden m.print_changed_files
    (build_regex m) (build_matcher m) (subst_escaped m) (dirs m) (get_file_set m)

theorem build_and_run_ok_trace (lib : RegexLib) (m : CliMatches)
    (h : (build_and_run lib m).2 = .ok ()) :
    (build_and_run lib m).1 =
      [if m.accept_all then entry_fast m else entry_interactive m] := by
  unfold build_and_run at h ⊢
  by_cases hm : lib.matcher_build_ok (build_matcher m) = false
  · simp [hm] at h
  · by_cases ha : m.accept_all = true <;>
      simp [hm, ha, entry_fast, entry_interactive]

/-- C1: with the fixed-strings option set, the pattern is
metacharacter-escaped before compilation — so the escaped pattern denotes,
and matches, exactly the literal input text — and every `$` of the
substitution is escaped to `$$`, so template expansion emits the substitution
verbatim; without the option both strings pass through unchanged. -/
theorem fixed_strings_escape_correct (m : CliMatches) :
    (m.fixed_strings = true →
      maybe_escaped_regex m = regex_escape m.match_regex ∧
      subst_escaped m = escape_dollars m.subst ∧
      parseAtoms (maybe_escaped_regex m).data =
        some (m.match_regex.data.map Atom.lit) ∧
      (∀ (dotall : Bool) (s : String),
        atomsMatch dotall (m.match_regex.data.map Atom.lit) s.data = true ↔
          s = m.match_regex) ∧
      (∀ g : String → String,
        expandTemplate g (subst_escaped m).data = m.subst.data)) ∧
    (m.fixed_strings = false →
      maybe_escaped_regex m = m.match_regex ∧ subst_escaped m = m.subst) := by
  constructor
  · intro hf
    refine ⟨by simp [maybe_escaped_regex, hf], by simp [subst_escaped, hf],
      ?_, ?_, ?_⟩
    · simp [maybe_escaped_regex, hf, regex_escape, parseAtoms_escapeChars]
    · intro dotall s
      rw [atomsMatch_lit]
      exact ⟨fun h => String.ext h, fun h => by rw [h]⟩
    · intro g
      simp [subst_escaped, hf, escape_dollars, expandTemplate_escapeDollars]
  · intro hf
    simp [maybe_escaped_regex, subst_escaped, hf]

/-- Witness for C1 at the configuration with pattern `a.b`, substitution
`x$1` and fixed-strings on. -/
theorem fixed_strings_escape_correct_witness :
    maybe_escaped_regex m_fixed = regex_escape ("a.b") ∧
    (atomsMatch false (("a.b" : String).data.map Atom.lit)
        ("aXb" : String).data = true ↔ ("aXb" : String) = "a.b") ∧
    expandTemplate (fun _ => "CAP") (subst_escaped m_fixed).data =
      ("x$1" : String).data := by
  have h := (fixed_strings_escape_correct m_fixed).1 rfl
  exact ⟨h.1, h.2.2.2.1 false ("aXb"), h.2.2.2.2 fun _ => "CAP"⟩

/-- C2: for every option combination, both compiled matchers are built with
multi-line mode unconditionally on while dot-matches-newline is on exactly
when the multiline option is given. -/
theorem multiline_flag_wiring (m : CliMatches) :
    (build_regex m).multi_line = true ∧
    (build_regex m).dot_matches_new_line = m.multiline ∧
    (build_matcher m).multi_line = true ∧
    (build_matcher m).dot_matches_new_line = m.multiline :=
  ⟨rfl, rfl, rfl, rfl⟩

/-- C7: case sensitivity is uniform — each of the two compiled matchers is
case-insensitive exactly when the ignore-case option is given. -/
theorem ignore_case_uniform (m : CliMatches) :
    (build_regex m).case_insensitive = m.ignore_case ∧
    (build_matcher m).case_insensitive = m.ignore_case :=
  ⟨rfl, rfl⟩

/-- C8: the substitution regex and the search matcher are built from the
identical (possibly escaped) pattern string and with identical settings of
all three flags. -/
theorem regex_matcher_agree (m : CliMatches) :
    (build_regex m).pattern = (build_matcher m).pattern ∧
    (build_regex m).case_insensitive = (build_matcher m).case_insensitive ∧
    (build_regex m).multi_line = (build_matcher m).multi_line ∧
    (build_regex m).dot_matches_new_line =
      (build_matcher m).dot_matches_new_line :=
  ⟨rfl, rfl, rfl, rfl⟩

/-- C10: with no `--dir` value and no positional root, the search roots are
exactly the current directory; otherwise they are the `--dir` values followed
by the positional values, in that order, with no default added. -/
theorem default_search_roots (m : CliMatches) :
    (m.dir = [] → m.file_or_dir = [] → dirs m = ["."]) ∧
    (m.dir ++ m.file_or_dir ≠ [] → dirs m = m.dir ++ m.file_or_dir) := by
  constructor
  · intro h1 h2
    simp [dirs, h1, h2]
  · intro h
    unfold dirs
    rw [if_neg]
    simp [List.isEmpty_iff, h]

/-- Witness for C10: the empty configuration defaults to the current
directory and the configuration with roots keeps them in order. -/
theorem default_search_roots_witness :
    dirs m_base = ["."] ∧ dirs m_dirs = ["d1", "p1"] := by
  refine ⟨(default_search_roots m_base).1 rfl rfl, ?_⟩
  have h := (default_search_roots m_dirs).2 (by decide)
  simpa using h

/-- C3: when the compiled pattern matches the empty string the confirmation
prompt is the very first event of the run — it happens exactly once, before
any entry point (and hence before any file scan) — and when the pattern does
not match the empty string, no confirmation prompt ever occurs. -/
theorem empty_match_prompt_once (lib : RegexLib) (p : Option String)
    (m : CliMatches) (hb : lib.regex_build_ok (build_regex m) = true) :
    (lib.is_match (build_regex m) "" = true →
      (fastmod lib p m).1.head? =
        some (Event.prompt_empty_warning (build_regex m)) ∧
      ((fastmod lib p m).1.tail.all fun e => !isPromptEvent e) = true) ∧
    (lib.is_match (build_regex m) "" = false →
      ((fastmod lib p m).1.all fun e => !isPromptEvent e) = true) := by
  constructor
  · intro he
    unfold fastmod
    simp only [hb, he, Bool.true_eq_false, if_false, if_true]
    cases p with
    | none => simp
    | some r =>
      simp only [List.head?_cons, List.tail_cons, true_and]
      exact build_and_run_no_prompt lib m
  · intro he
    unfold fastmod
    simp only [hb, he, Bool.true_eq_false, if_false]
    exact build_and_run_no_prompt lib m

/-- Witness for C3 with a library behaviour whose every regex matches the
empty string. -/
theorem empty_match_prompt_once_witness :
    (fastmod lib_all (some ("")) m_base).1.head? =
      some (Event.prompt_empty_warning (build_regex m_base)) ∧
    ((fastmod lib_all (some ("")) m_base).1.tail.all
      fun e => !isPromptEvent e) = true :=
  (empty_match_prompt_once lib_all (some ("")) m_base rfl).1 rfl

/-- C4: when the pattern fails to compile, the run returns a configuration
error naming the original pattern and produces no events at all; moreover, on
any error outcome whatsoever, no entry point was invoked. -/
theorem config_error_aborts_run (lib : RegexLib) (p : Option String)
    (m : CliMatches) :
    (lib.regex_build_ok (build_regex m) = false →
      fastmod lib p m =
        ([], Except.error (FastmodError.config_error m.match_regex))) ∧
    (∀ e : FastmodError, (fastmod lib p m).2 = Except.error e →
      ((fastmod lib p m).1.all fun ev => !isEntryEvent ev) = true) := by
  constructor
  · intro hb
    simp [fastmod, hb]
  · intro e he
    simp only [fastmod] at he ⊢
    cases hb : lib.regex_build_ok (build_regex m) with
    | false =>
      simp only [hb] at he ⊢
      simp
    | true =>
      simp only [hb, Bool.true_eq_false, if_false] at he ⊢
      cases hm : lib.is_match (build_regex m) "" with
      | true =>
        simp only [hm, if_true] at he ⊢
        cases p with
        | none => simp [isPromptEvent, isEntryEvent]
        | some r =>
          simp only at he
          rw [build_and_run_error_no_entry lib m e he]
          simp [isPromptEvent, isEntryEvent]
      | false =>
        simp only [hm, Bool.false_eq_true, if_false] at he ⊢
        rw [build_and_run_error_no_entry lib m e he]
        simp

/-- Witness for C4 with a library behaviour on which no pattern compiles. -/
theorem config_error_aborts_run_witness :
    fastmod lib_bad_regex (some ("")) m_base =
      ([], Except.error (FastmodError.config_error ("a.b"))) :=
  (config_error_aborts_run lib_bad_regex (some ("")) m_base).1 rfl

/-- C5 (amended): every error that propagates out of the run is either a
pattern-compilation (configuration) error or a failure to read the
empty-string-match confirmation reply; entry-point errors are collected into
the result summary and never propagate. -/
theorem process_failure_classes (lib : RegexLib) (p : Option String)
    (m : CliMatches) (e : FastmodError)
    (h : (fastmod lib p m).2 = Except.error e) :
    isConfigError e = true ∨ e = FastmodError.prompt_read_error := by
  unfold fastmod at h
  by_cases hb : lib.regex_build_ok (build_regex m) = false
  · simp only [hb, if_true] at h
    rw [show e = FastmodError.config_error m.match_regex from by
      simpa using h.symm]
    exact Or.inl rfl
  · simp only [hb, if_false] at h
    by_cases hm : lib.is_match (build_regex m) "" = true
    · simp only [hm, if_true] at h
      cases p with
      | none => exact Or.inr (by simpa using h.symm)
      | some r =>
        simp only at h
        exact Or.inl (build_and_run_error_is_config lib m e h)
    · simp only [hm, if_false] at h
      exact Or.inl (build_and_run_error_is_config lib m e h)

/-- Witness for C5 (amended) at the prompt-read-failure outcome. -/
theorem process_failure_classes_witness :
    isConfigError FastmodError.prompt_read_error = true ∨
      FastmodError.prompt_read_error = FastmodError.prompt_read_error :=
  process_failure_classes lib_all none m_base FastmodError.prompt_read_error rfl

/-- Counterexample to C5 as stated: with a pattern matching the empty string
and an unreadable confirmation reply, the run fails with a prompt-read error,
which is not a configuration error. -/
theorem only_config_error_fails_cex :
    (fastmod lib_all none m_base).2 =
      Except.error FastmodError.prompt_read_error ∧
    isConfigError FastmodError.prompt_read_error = false := by
  exact ⟨rfl, rfl⟩

/-- C6: a successful run invokes exactly one entry point — the batch one
exactly when accept-all is given, the interactive one otherwise — and it
receives the compiled regex, the matcher, the escaped substitution, the
directory list, the file filters, the hidden flag and the
print-changed-files flag derived from the matches. -/
theorem entry_point_dispatch (lib : RegexLib) (p : Option String)
    (m : CliMatches) (h : (fastmod lib p m).2 = Except.ok ()) :
    (fastmod lib p m).1.filter isEntryEvent =
      [if m.accept_all then entry_fast m else entry_interactive m] := by
  simp only [fastmod] at h ⊢
  cases hb : lib.regex_build_ok (build_regex m) with
  | false => simp [hb] at h
  | true =>
    simp only [hb, Bool.true_eq_false, if_false] at h ⊢
    cases hm : lib.is_match (build_regex m) "" with
    | true =>
      simp only [hm, if_true] at h ⊢
      cases p with
      | none => simp at h
      | some r =>
        simp only at h ⊢
        rw [List.filter_cons_of_neg]
        · rw [build_and_run_ok_trace lib m h]
          cases ha : m.accept_all with
          | false => simp [ha, entry_interactive, isEntryEvent]
          | true => simp [ha, entry_fast, isEntryEvent]
        · simp [isEntryEvent]
    | false =>
      simp only [hm, Bool.false_eq_true, if_false] at h ⊢
      rw [build_and_run_ok_trace lib m h]
      cases ha : m.accept_all with
      | false => simp [ha, entry_interactive, isEntryEvent]
      | true => simp [ha, entry_fast, isEntryEvent]

/-- Witness for C6 at a successful interactive run. -/
theorem entry_point_dispatch_witness :
    (fastmod lib_all (some ("")) m_base).1.filter isEntryEvent =
      [if m_base.accept_all then entry_fast m_base
       else entry_interactive m_base] :=
  entry_point_dispatch lib_all (some ("")) m_base rfl

/-- C9: the empty-string-match confirmation ignores the content of the reply
— any successfully read reply continues the run identically — the run aborts
at the prompt only when reading the reply fails, and the confirmation happens
for every configuration, in particular also under accept-all. -/
theorem confirmation_reply_ignored (lib : RegexLib) (m : CliMatches)
    (hb : lib.regex_build_ok (build_regex m) = true)
    (he : lib.is_match (build_regex m) "" = true) :
    (∀ r : String, fastmod lib (some r) m =
      (Event.prompt_empty_warning (build_regex m) :: (build_and_run lib m).1,
        (build_and_run lib m).2)) ∧
    fastmod lib none m =
      ([Event.prompt_empty_warning (build_regex m)],
        Except.error FastmodError.prompt_read_error) ∧
    (∀ p : Option String,
      Event.prompt_empty_warning (build_regex m) ∈ (fastmod lib p m).1) := by
  refine ⟨?_, ?_, ?_⟩
  · intro r
    simp [fastmod, hb, he]
  · simp [fastmod, hb, he]
  · intro p
    cases p with
    | none => simp [fastmod, hb, he]
    | some r => simp [fastmod, hb, he]

/-- Witness for C9: two different replies produce the same run, and an
unreadable reply aborts with a prompt-read error. -/
theorem confirmation_reply_ignored_witness :
    fastmod lib_all (some ("anything")) m_base =
      fastmod lib_all (some ("")) m_base ∧
    fastmod lib_all none m_base =
      ([Event.prompt_empty_warning (build_regex m_base)],
        Except.error FastmodError.prompt_read_error) := by
  have h := confirmation_reply_ignored lib_all m_base rfl rfl
  exact ⟨by rw [h.1 ("anything"), h.1 ("")], h.2.1⟩

end FastmodCli
